import Mathlib

/-!
Verification of the htcondenser fixture programs and of the job-execution
core their spec describes.

The repository's `src/` holds two fixture payloads:
  * `src/examples/simple_exe_job/showsize.c` — a native C program printing
    integer-limit constants;
  * `src/examples/simple_root6_job/hist.C` — an interpreted ROOT macro that
    renders a plot to `hist.pdf` and fills a two-branch TTree with 100
    entries into `simple_tree.root`.
Those two files are embedded below directly from their source.  The
execution core (job descriptor, toolchain adapters, orchestrator, artifact
validator, result reporter) exists only in the specification, so it is
modelled from the spec's words; each such definition says so in its doc
comment.
-/

/- ### Embedding of src/examples/simple_exe_job/showsize.c -/

/-- The value of `INT_MAX` for the conventional 32-bit C `int` printed by
`%d`. -/
def INT_MAX : Int := 2 ^ 31 - 1

/-- The value of `ULLONG_MAX` for the 64-bit C `unsigned long long` printed
by `%llu`. -/
def ULLONG_MAX : Nat := 2 ^ 64 - 1

/-- The newline-terminated lines `showsize.c`'s `main` writes to stdout:
three `printf` calls, each ending in a newline. -/
def showsizeStdout : List String :=
  [ "Hi",
    "Max int = " ++ toString INT_MAX,
    "Max unsigned long long = " ++ toString ULLONG_MAX ]

/-- The function `main(int arg, char** argv)` of `showsize.c`: the argument
vector is never read; the program prints `showsizeStdout` and returns 0. -/
def showsizeMain (args : List String) : List String × Int :=
  (showsizeStdout, 0)

/- ### Embedding of src/examples/simple_root6_job/hist.C -/

/-- One entry of the TTree `tree`: the macro declares exactly two branches,
`pt` and `eta`, bound to the two local `float` variables.  Arithmetic on
the values is modelled exactly over `ℚ`. -/
structure TreeRecord where
  pt : ℚ
  eta : ℚ
deriving DecidableEq

/-- The branch layout of a filled entry: each `t->Fill()` stores the current
value of both bound branches, so every record carries the two named fields
`pt` and `eta`. -/
def TreeRecord.fields (r : TreeRecord) : List (String × ℚ) :=
  [("pt", r.pt), ("eta", r.eta)]

/-- Loop body of the fill loop in `hist.C`, for iteration `i` of a stream
`rng` of random draws (`gRandom->Rndm(1)`), two draws per iteration:
`pt = gRandom->Rndm(1)*150; eta = (gRandom->Rndm(1)*10.) - 5.;`. -/
def histFill (rng : Nat → ℚ) (i : Nat) : TreeRecord :=
  { pt := rng (2 * i) * 150, eta := rng (2 * i + 1) * 10 - 5 }

/-- The loop indices of `for(int i = 0; i < 100; ++i)`; each iteration
performs exactly one `t->Fill()`. -/
def histLoopIndices : List Nat := List.range 100

/-- The entries stored in the TTree after the fill loop: one record per
loop iteration. -/
def histRecords (rng : Nat → ℚ) : List TreeRecord :=
  histLoopIndices.map (histFill rng)

/-- Content of a file a job writes, as far as the validator's structural
probes observe it.  Modelled from the spec: the per-kind probes inspect
text readability, a document's signature, and a structured container's
record count.  `document` records whether the standard file signature
validates; `c.SaveAs` and `f->Write()` are library code outside `src/`,
so a document's exact byte size is not determined by the source and
`sizeBytes` below abstracts it as the positive token 1. -/
inductive FileData where
  | textLines (lines : List String)
  | document (signatureValid : Bool)
  | structured (records : List (List (String × ℚ)))
deriving DecidableEq

/-- Modelled from the spec: byte size of a written file as the validator's
non-zero-size check observes it.  Text is newline-terminated lines; a
rendered document is non-empty (abstracted as 1); a structured container
has a non-empty header plus its records. -/
def FileData.sizeBytes : FileData → Nat
  | .textLines ls => (ls.map (fun s => s.length + 1)).sum
  | .document _ => 1
  | .structured rs => 1 + rs.length

/-- The complete set of files one execution of `hist.C` writes, in program
order: `c.SaveAs("hist.pdf")` then `TFile::Open("simple_tree.root","RECREATE")`
holding the filled tree.  `SaveAs` always renders a well-formed plot
document, so its signature validates. -/
def histFiles (rng : Nat → ℚ) : List (String × FileData) :=
  [ ("hist.pdf", FileData.document true),
    ("simple_tree.root", FileData.structured ((histRecords rng).map TreeRecord.fields)) ]

/- ### The execution core, modelled from the spec -/

/-- Modelled from the spec: the closed set of job kinds. -/
inductive JobKind where
  | nativeCompiled
  | interpretedScript
deriving DecidableEq

/-- Modelled from the spec: the declared kind of an expected artifact. -/
inductive ArtifactKind where
  | textLog
  | binaryDocument
  | structuredDataFile
deriving DecidableEq

/-- Modelled from the spec: one declared expected output, a relative path
plus its expected kind. -/
structure ArtifactDecl where
  relPath : String
  kind : ArtifactKind
deriving DecidableEq

/-- Modelled from the spec: the immutable job description. -/
structure JobDescriptor where
  kind : JobKind
  sourcePath : String
  workingDirectory : String
  expectedArtifacts : List ArtifactDecl
deriving DecidableEq

/-- Modelled from the spec: result of an adapter's `prepare` step —
success, a compile error carrying the compiler diagnostic, or an absent
interpreter runtime. -/
inductive PrepareOutcome where
  | ok
  | compileError (diag : String)
  | runtimeUnavailable
deriving DecidableEq

/-- Modelled from the spec: `true` exactly when the prepare step failed. -/
def prepFails : PrepareOutcome → Bool
  | .ok => false
  | .compileError _ => true
  | .runtimeUnavailable => true

/-- Modelled from the spec: what an adapter's `execute` step yields — exit
status, captured output lines, and the files it wrote (paths relative to
the working directory, as found by scanning it). -/
structure RunResult where
  exitStatus : Int
  capturedOutput : List String
  files : List (String × FileData)

/-- Modelled from the spec: the per-kind toolchain capability set. -/
structure ToolchainAdapter where
  prepare : JobDescriptor → PrepareOutcome
  execute : JobDescriptor → RunResult

/-- Split a path's characters into its `/`-separated segments. -/
def splitSegs : List Char → List (List Char)
  | [] => [[]]
  | c :: cs =>
      let rest := splitSegs cs
      if c = '/' then [] :: rest
      else
        match rest with
        | [] => [[c]]
        | seg :: segs => (c :: seg) :: segs

/-- Modelled from the spec: a written path escapes the sandbox when it is
absolute or climbs out of the working directory with a `..` segment. -/
def escapesSandbox (p : String) : Bool :=
  (match p.data with
   | [] => false
   | c :: _ => decide (c = '/'))
  || (splitSegs p.data).contains ['.', '.']

/-- Modelled from the spec: the validator's per-artifact record. -/
structure ArtifactCheck where
  present : Bool
  sizeBytes : Nat
  structurallyValid : Bool
deriving DecidableEq

/-- Modelled from the spec: the per-declared-kind structural probe —
`text-log` must be readable as text, `binary-document` must carry a valid
signature, `structured-data-file` must parse with a nonzero record count. -/
def structProbe (k : ArtifactKind) (fd : FileData) : Bool :=
  match k, fd with
  | .textLog, .textLines _ => true
  | .binaryDocument, .document sig => sig
  | .structuredDataFile, .structured rs => decide (rs.length ≠ 0)
  | _, _ => false

/-- Modelled from the spec: validate one declared artifact against the
files found in the working directory — existence, non-zero size, and the
per-kind structural probe. -/
def checkArtifact (files : List (String × FileData)) (a : ArtifactDecl) : ArtifactCheck :=
  match files.find? (fun f => decide (f.1 = a.relPath)) with
  | none => { present := false, sizeBytes := 0, structurallyValid := false }
  | some f =>
      { present := true,
        sizeBytes := f.2.sizeBytes,
        structurallyValid := decide (f.2.sizeBytes ≠ 0) && structProbe a.kind f.2 }

/-- Modelled from the spec: the execution verdict outcomes. -/
inductive Outcome where
  | passed
  | prepareFailed
  | runFailed
  | artifactMissing
  | artifactInvalid
deriving DecidableEq

/-- Modelled from the spec: the verdict record the reporter emits. -/
structure Verdict where
  outcome : Outcome
  detail : String

/-- Modelled from the spec: the reporter's aggregation over the artifact
checks — `Passed` only if every declared artifact is present and
structurally valid, otherwise `ArtifactMissing` or `ArtifactInvalid`. -/
def verdictOfChecks (checks : List ArtifactCheck) : Outcome :=
  if checks.any (fun c => !c.present) then .artifactMissing
  else if checks.any (fun c => !c.structurallyValid) then .artifactInvalid
  else .passed

/-- Modelled from the spec: the orchestrator's single operation.  It calls
`prepare`; on failure it short-circuits to `PrepareFailed` with an empty
check list, never consulting `execute`.  Otherwise it runs `execute`,
reports `RunFailed` if any written path escapes the sandbox, and otherwise
validates every declared artifact and aggregates the verdict. -/
def runJob (adapter : ToolchainAdapter) (d : JobDescriptor) :
    Verdict × List ArtifactCheck :=
  match adapter.prepare d with
  | .compileError diag => ({ outcome := .prepareFailed, detail := diag }, [])
  | .runtimeUnavailable =>
      ({ outcome := .prepareFailed, detail := "interpreter runtime unavailable" }, [])
  | .ok =>
      let run := adapter.execute d
      if run.files.any (fun f => escapesSandbox f.1) then
        ({ outcome := .runFailed, detail := "ArtifactEscapedSandbox" }, [])
      else
        let checks := d.expectedArtifacts.map (checkArtifact run.files)
        ({ outcome := verdictOfChecks checks, detail := "" }, checks)

/-- The NativeCompiled adapter instantiated for the `showsize.c` fixture:
the source compiles, and `execute` runs the produced executable with no
arguments, capturing its stdout and exit code; the program writes no
files. -/
def showsizeAdapter : ToolchainAdapter where
  prepare := fun _ => .ok
  execute := fun _ =>
    { exitStatus := (showsizeMain []).2,
      capturedOutput := (showsizeMain []).1,
      files := [] }

/-- The InterpretedScript adapter instantiated for the `hist.C` fixture
with random stream `rng`: `prepare` is a no-op with the runtime available,
and `execute` runs the macro in the working directory, writing exactly
`histFiles rng` there (the interpreter's banner output is not modelled). -/
def histAdapter (rng : Nat → ℚ) : ToolchainAdapter where
  prepare := fun _ => .ok
  execute := fun _ =>
    { exitStatus := 0, capturedOutput := [], files := histFiles rng }

/-- Resolution of a relative artifact path against a working directory. -/
def resolveIn (wd p : String) : String := wd ++ "/" ++ p

/-- A full path lies strictly inside a directory. -/
def insideDir (wd full : String) : Prop :=
  ∃ rest, rest ≠ "" ∧ full = wd ++ "/" ++ rest

/- ### Claims -/

/-- C1 counterexample: the claim says the text-log artifact capturing
`showsize`'s stdout contains exactly two lines, but a concrete invocation
prints three lines (`Hi` plus the two constants). -/
theorem showsize_log_not_two_lines : ¬ (showsizeMain []).1.length = 2 := by
  decide

/-- C1 (amended): every invocation of the `showsize` fixture prints its
two integer-limit constants to stdout, and the text-log artifact capturing
that output is non-empty, readable as text, and contains exactly three
lines (two of which carry the constants). -/
theorem showsize_log_artifact (args : List String) :
    ("Max int = " ++ toString INT_MAX) ∈ (showsizeMain args).1 ∧
    ("Max unsigned long long = " ++ toString ULLONG_MAX) ∈ (showsizeMain args).1 ∧
    (showsizeMain args).1 ≠ [] ∧
    (showsizeMain args).1.length = 3 ∧
    (FileData.textLines (showsizeMain args).1).sizeBytes ≠ 0 ∧
    structProbe ArtifactKind.textLog (FileData.textLines (showsizeMain args).1) = true := by
  refine ⟨?_, ?_, ?_, ?_, ?_, ?_⟩ <;> simp [showsizeMain, showsizeStdout,
    FileData.sizeBytes, structProbe]

/-- C2: the structured-data file written by `hist.C` contains exactly 100
records, one per iteration of the fill loop. -/
theorem hist_tree_record_count (rng : Nat → ℚ) :
    (histRecords rng).length = 100 ∧
    (histRecords rng).length = histLoopIndices.length ∧
    ∃ rs, ("simple_tree.root", FileData.structured rs) ∈ histFiles rng ∧
      rs.length = 100 := by
  refine ⟨by simp [histRecords, histLoopIndices], by simp [histRecords], ?_⟩
  exact ⟨(histRecords rng).map TreeRecord.fields,
    by simp [histFiles], by simp [histRecords, histLoopIndices]⟩

/-- C3: every execution of `hist.C` writes exactly two files — the
rendered plot `hist.pdf` (a binary document with a valid signature) and
the tabular container `simple_tree.root` — and nothing else. -/
theorem hist_writes_exactly_two_files (rng : Nat → ℚ) :
    (histFiles rng).length = 2 ∧
    (histFiles rng).map Prod.fst = ["hist.pdf", "simple_tree.root"] ∧
    ∃ rs, (histFiles rng).map Prod.snd =
      [FileData.document true, FileData.structured rs] := by
  exact ⟨rfl, rfl, ⟨(histRecords rng).map TreeRecord.fields, rfl⟩⟩

/-- The reporter's aggregation only ever yields `Passed`, `ArtifactMissing`
or `ArtifactInvalid`, never `RunFailed`. -/
theorem verdictOfChecks_ne_runFailed (checks : List ArtifactCheck) :
    verdictOfChecks checks ≠ Outcome.runFailed := by
  unfold verdictOfChecks
  split_ifs <;> simp

/-- Neither file written by `hist.C` escapes the sandbox. -/
theorem histFiles_no_escape (rng : Nat → ℚ) :
    (histFiles rng).any (fun f => escapesSandbox f.1) = false := by
  simp [histFiles]; decide

/-- C4: every path `hist.C` writes is relative, so resolved against the
job's working directory it lands strictly inside it; consequently the
orchestrator's `ArtifactEscapedSandbox` branch is unreachable for this
script and no run of it is classified `RunFailed`. -/
theorem hist_paths_stay_in_sandbox (rng : Nat → ℚ) :
    (∀ f ∈ histFiles rng, escapesSandbox f.1 = false ∧
       ∀ wd, insideDir wd (resolveIn wd f.1)) ∧
    ∀ d, (runJob (histAdapter rng) d).1.outcome ≠ Outcome.runFailed := by
  constructor
  · intro f hf
    have hpaths : f.1 = "hist.pdf" ∨ f.1 = "simple_tree.root" := by
      simp only [histFiles, List.mem_cons, List.not_mem_nil, or_false] at hf
      rcases hf with h | h <;> [left; right] <;> rw [h]
    refine ⟨?_, ?_⟩
    · rcases hpaths with h | h <;> rw [h] <;> decide
    · intro wd
      exact ⟨f.1, by rcases hpaths with h | h <;> rw [h] <;> decide, rfl⟩
  · intro d
    simp only [runJob, histAdapter, histFiles_no_escape rng]
    simp only [Bool.false_eq_true, if_false]
    exact verdictOfChecks_ne_runFailed _

/-- C5: the `showsize` fixture exits with status zero for every argument
vector; hence a valid NativeCompiled descriptor for it with no declared
artifacts gets verdict `Passed` from the orchestrator. -/
theorem showsize_exits_zero_and_passes (args : List String) (d : JobDescriptor)
    (hk : d.kind = JobKind.nativeCompiled)
    (ha : d.expectedArtifacts = []) :
    (showsizeMain args).2 = 0 ∧
    (runJob showsizeAdapter d).1.outcome = Outcome.passed := by
  refine ⟨rfl, ?_⟩
  simp [runJob, showsizeAdapter, ha, verdictOfChecks]

/-- C5 witness: the theorem applied at a concrete argument vector and a
concrete artifact-free NativeCompiled descriptor. -/
theorem showsize_exits_zero_and_passes_witness :
    (showsizeMain ["a", "b"]).2 = 0 ∧
    (runJob showsizeAdapter
      { kind := JobKind.nativeCompiled, sourcePath := "showsize.c",
        workingDirectory := "wd1", expectedArtifacts := [] }).1.outcome
      = Outcome.passed :=
  showsize_exits_zero_and_passes ["a", "b"]
    { kind := JobKind.nativeCompiled, sourcePath := "showsize.c",
      workingDirectory := "wd1", expectedArtifacts := [] } rfl rfl

/-- C4 witness: the sandbox theorem applied to the concrete plot file
written by a concrete run of the macro. -/
theorem hist_paths_stay_in_sandbox_witness :
    escapesSandbox "hist.pdf" = false ∧
    insideDir "wd1" (resolveIn "wd1" "hist.pdf") :=
  ⟨((hist_paths_stay_in_sandbox (fun _ => 0)).1 ("hist.pdf", FileData.document true)
      (by simp [histFiles])).1,
   ((hist_paths_stay_in_sandbox (fun _ => 0)).1 ("hist.pdf", FileData.document true)
      (by simp [histFiles])).2 "wd1"⟩

/-- The validator's view of the files written by `hist.C` does not depend
on the random stream: presence, size and structural validity are the same
for any two streams, record values aside. -/
theorem checkArtifact_hist_const (rng1 rng2 : Nat → ℚ) (a : ArtifactDecl) :
    checkArtifact (histFiles rng1) a = checkArtifact (histFiles rng2) a := by
  by_cases h1 : "hist.pdf" = a.relPath
  · simp [checkArtifact, histFiles, List.find?, h1]
  · by_cases h2 : "simple_tree.root" = a.relPath
    · rcases hk : a.kind with _ | _ | _ <;>
        simp [checkArtifact, histFiles, List.find?, h1, h2, hk, FileData.sizeBytes,
          structProbe, histRecords, histLoopIndices]
    · simp [checkArtifact, histFiles, List.find?, h1, h2]

/-- C6: running the interpreted fixture's descriptor twice with two
distinct working directories yields the same outcome classification even
when the two runs draw different random values; in particular the record
count and the set of files produced coincide across the runs. -/
theorem hist_run_idempotent (w1 w2 : String) (h : w1 ≠ w2)
    (rng1 rng2 : Nat → ℚ) (d : JobDescriptor) :
    (runJob (histAdapter rng1) { d with workingDirectory := w1 }).1.outcome =
      (runJob (histAdapter rng2) { d with workingDirectory := w2 }).1.outcome ∧
    (histRecords rng1).length = (histRecords rng2).length ∧
    (histFiles rng1).map Prod.fst = (histFiles rng2).map Prod.fst := by
  refine ⟨?_, by simp [histRecords], rfl⟩
  have hfe : checkArtifact (histFiles rng1) = checkArtifact (histFiles rng2) :=
    funext (checkArtifact_hist_const rng1 rng2)
  simp [runJob, histAdapter, histFiles_no_escape, hfe]

/-- C6 witness: the idempotence theorem applied to two concrete distinct
working directories, two concrete random streams and a concrete
descriptor. -/
theorem hist_run_idempotent_witness :
    (runJob (histAdapter fun _ => 0)
      { kind := JobKind.interpretedScript, sourcePath := "hist.C",
        workingDirectory := "wd1", expectedArtifacts := [] }).1.outcome =
    (runJob (histAdapter fun _ => 1)
      { kind := JobKind.interpretedScript, sourcePath := "hist.C",
        workingDirectory := "wd2", expectedArtifacts := [] }).1.outcome :=
  (hist_run_idempotent "wd1" "wd2" (by decide) (fun _ => 0) (fun _ => 1)
    { kind := JobKind.interpretedScript, sourcePath := "hist.C",
      workingDirectory := "", expectedArtifacts := [] }).1

/-- C7: whenever an adapter's prepare step fails, `runJob` short-circuits
to `PrepareFailed` with an empty artifact-check list, and its result does
not depend on the adapter's `execute` function at all — `execute` is never
invoked. -/
theorem prepare_failure_short_circuits (a : ToolchainAdapter) (d : JobDescriptor)
    (h : prepFails (a.prepare d) = true) :
    (runJob a d).1.outcome = Outcome.prepareFailed ∧
    (runJob a d).2 = [] ∧
    ∀ ex2 : JobDescriptor → RunResult,
      runJob { prepare := a.prepare, execute := ex2 } d = runJob a d := by
  rcases hp : a.prepare d with _ | diag | _
  · rw [hp] at h; simp [prepFails] at h
  · exact ⟨by simp [runJob, hp], by simp [runJob, hp], fun ex2 => by simp [runJob, hp]⟩
  · exact ⟨by simp [runJob, hp], by simp [runJob, hp], fun ex2 => by simp [runJob, hp]⟩

/-- A stub adapter whose prepare step always reports a compile error, as
for a NativeCompiled job whose source does not compile. -/
def failingAdapter : ToolchainAdapter where
  prepare := fun _ => .compileError "bad.c:1: error: expected declaration"
  execute := fun _ => { exitStatus := 1, capturedOutput := [], files := [] }

/-- C7 witness: the short-circuit theorem applied to a concrete adapter
with a failing prepare step and a concrete descriptor. -/
theorem prepare_failure_short_circuits_witness :
    (runJob failingAdapter
      { kind := JobKind.nativeCompiled, sourcePath := "bad.c",
        workingDirectory := "wd3", expectedArtifacts := [] }).1.outcome
      = Outcome.prepareFailed ∧
    (runJob failingAdapter
      { kind := JobKind.nativeCompiled, sourcePath := "bad.c",
        workingDirectory := "wd3", expectedArtifacts := [] }).2 = [] :=
  ⟨(prepare_failure_short_circuits failingAdapter
      { kind := JobKind.nativeCompiled, sourcePath := "bad.c",
        workingDirectory := "wd3", expectedArtifacts := [] } rfl).1,
   (prepare_failure_short_circuits failingAdapter
      { kind := JobKind.nativeCompiled, sourcePath := "bad.c",
        workingDirectory := "wd3", expectedArtifacts := [] } rfl).2.1⟩

/-- C8: the `showsize` fixture's stdout bytes and exit status are
independent of its command-line arguments — any two invocations with any
two argument vectors produce identical results. -/
theorem showsize_independent_of_args (a b : List String) :
    showsizeMain a = showsizeMain b := rfl

/-- C9: every record the macro stores in the structured-data file carries
exactly two fields, named `pt` and `eta` — the same field count for all
records. -/
theorem hist_records_have_two_fields (rng : Nat → ℚ) (r : TreeRecord)
    (h : r ∈ histRecords rng) :
    (TreeRecord.fields r).length = 2 ∧
    (TreeRecord.fields r).map Prod.fst = ["pt", "eta"] :=
  ⟨rfl, rfl⟩

/-- C9 witness: the field-layout theorem applied to the first record of a
concrete run. -/
theorem hist_records_have_two_fields_witness :
    (TreeRecord.fields (histFill (fun _ => 0) 0)).length = 2 ∧
    (TreeRecord.fields (histFill (fun _ => 0) 0)).map Prod.fst = ["pt", "eta"] :=
  hist_records_have_two_fields (fun _ => 0) (histFill (fun _ => 0) 0)
    (List.mem_map_of_mem _ (List.mem_range.mpr (by norm_num)))

/-- C10: when every draw of the random stream lies in `[0, 1]`, every
record's `pt` lies in `[0, 150]` and its `eta` lies in `[-5, 5]`. -/
theorem hist_record_values_bounded (rng : Nat → ℚ)
    (hr : ∀ n, 0 ≤ rng n ∧ rng n ≤ 1)
    (r : TreeRecord) (h : r ∈ histRecords rng) :
    0 ≤ r.pt ∧ r.pt ≤ 150 ∧ -5 ≤ r.eta ∧ r.eta ≤ 5 := by
  simp only [histRecords] at h
  rcases List.mem_map.mp h with ⟨i, _, rfl⟩
  obtain ⟨h0, h1⟩ := hr (2 * i)
  obtain ⟨h2, h3⟩ := hr (2 * i + 1)
  refine ⟨?_, ?_, ?_, ?_⟩ <;> simp only [histFill] <;> nlinarith

/-- C10 witness: the bounds theorem applied to the all-zero random stream
and the first record it produces. -/
theorem hist_record_values_bounded_witness :
    0 ≤ (histFill (fun _ => 0) 0).pt ∧ (histFill (fun _ => 0) 0).pt ≤ 150 ∧
    -5 ≤ (histFill (fun _ => 0) 0).eta ∧ (histFill (fun _ => 0) 0).eta ≤ 5 :=
  hist_record_values_bounded (fun _ => 0)
    (fun _ => ⟨le_refl 0, by norm_num⟩)
    (histFill (fun _ => 0) 0)
    (List.mem_map_of_mem _ (List.mem_range.mpr (by norm_num)))
